import Mathlib

/-!
Shallow embedding of `clang/lib/Sema/SemaModule.cpp` (semantic analysis of
C++ module declarations and imports) and proofs about its behaviour.

Conventions of the embedding:
* `SourceLocation` is a wrapped `Nat`; raw value `0` plays the role of an
  invalid (default-constructed) `clang::SourceLocation`.
* A clang `Module` is represented by its own data together with the list of
  data of its ancestors (parent first, root last); `Module::Parent` is the
  derived `Module.Parent` accessor.  This makes the parent chain finite by
  construction, matching clang's tree of modules.
* Mutable collaborator state (`Sema`'s fields, the `ModuleMap` registry, the
  AST context, the module loader and the AST consumer) is collected in one
  `SemaState` record which every handler threads through explicitly.
* Diagnostics are recorded as (location, kind) pairs; message payload
  formatting is out of scope (the core only decides that and when a
  diagnostic fires).
* `std::vector::back`/`push_back`/`pop_back` on `ModuleScopes` is modelled
  with a Lean `List` whose HEAD is the BACK (most recently pushed frame).
-/

namespace Clang

/-- A source location; raw value 0 is the invalid (default) location. -/
structure SourceLocation where
  raw : Nat
  deriving DecidableEq, Repr

/-- `SourceLocation::isValid`. -/
def SourceLocation.isValid (l : SourceLocation) : Bool :=
  decide (l.raw ≠ 0)

/-- The invalid (default-constructed) source location. -/
def SourceLocation.invalid : SourceLocation := ⟨0⟩

/-- `clang::Module::ModuleKind`. -/
inductive ModuleKind where
  | ModuleMapModule
  | ModuleInterfaceUnit
  | GlobalModuleFragment
  deriving DecidableEq, Repr

/-- The per-module attributes of a `clang::Module` relevant to SemaModule. -/
structure ModuleData where
  Name : String
  Kind : ModuleKind
  IsExternC : Bool
  DefinitionLoc : SourceLocation
  ASTFile : Option String
  deriving DecidableEq, Repr

/-- A `clang::Module *`: its own data plus the data of its ancestors,
parent first and root last, so parent chains are finite by construction. -/
structure Module where
  Info : ModuleData
  Ancestors : List ModuleData
  deriving DecidableEq, Repr

def Module.Name (m : Module) : String := m.Info.Name

def Module.Kind (m : Module) : ModuleKind := m.Info.Kind

def Module.IsExternC (m : Module) : Bool := m.Info.IsExternC

def Module.DefinitionLoc (m : Module) : SourceLocation := m.Info.DefinitionLoc

def Module.ASTFile (m : Module) : Option String := m.Info.ASTFile

/-- `Module::Parent`: the parent link, or `none` for a top-level module. -/
def Module.Parent (m : Module) : Option Module :=
  match m.Ancestors with
  | [] => none
  | a :: rest => some ⟨a, rest⟩

/-- Walk `Parent` links from `d` (whose ancestor data list is `chain`) up to
the root of the module tree. -/
def ModuleData.topOfChain : ModuleData → List ModuleData → ModuleData
  | d, [] => d
  | _, a :: rest => ModuleData.topOfChain a rest

/-- `Module::getTopLevelModuleName`: the name of the root of the parent
chain. -/
def Module.getTopLevelModuleName (m : Module) : String :=
  (ModuleData.topOfChain m.Info m.Ancestors).Name

/-- The number of modules on the chain from `m` to the root following
`Parent` links (`m` itself included). -/
def Module.ancestorChainLength (m : Module) : Nat :=
  m.Ancestors.length + 1

/-- Chain length of an optional module cursor (`0` for null). -/
def optChainLength : Option Module → Nat
  | none => 0
  | some m => m.ancestorChainLength

/-- Modelled from the spec: the Visibility Set (`clang::VisibleModuleSet`,
whose implementation is not part of this repository slice) is a "mapping from
Module to 'visible since' location.  Invariant: a module is visible iff
present in the set; re-setting visibility updates the recorded location but
is idempotent with respect to membership." -/
structure VisibleModuleSet where
  ImportLocs : List (Module × SourceLocation)
  deriving DecidableEq, Repr

/-- Modelled from the spec: `VisibleModuleSet::setVisible` marks the module
visible at the given location, updating the recorded location if the module
was already visible. -/
def VisibleModuleSet.setVisible (V : VisibleModuleSet) (M : Module)
    (Loc : SourceLocation) : VisibleModuleSet :=
  ⟨(M, Loc) :: V.ImportLocs.filter (fun p => decide (p.1 ≠ M))⟩

/-- Modelled from the spec: `VisibleModuleSet::isVisible` — a module is
visible iff present in the set. -/
def VisibleModuleSet.isVisible (V : VisibleModuleSet) (M : Module) : Bool :=
  V.ImportLocs.any (fun p => decide (p.1 = M))

/-- Modelled from the spec: `VisibleModuleSet::getImportLoc` — the recorded
"visible since" location, or the invalid location if not visible. -/
def VisibleModuleSet.getImportLoc (V : VisibleModuleSet) (M : Module) :
    SourceLocation :=
  ((V.ImportLocs.find? (fun p => decide (p.1 = M))).map Prod.snd).getD
    SourceLocation.invalid

/-- The language of a `LinkageSpecDecl`. -/
inductive LinkageLang where
  | lang_c
  | lang_cxx
  deriving DecidableEq, Repr

/-- The declaration-context chain relevant to `checkModuleImportContext`:
the translation unit, linkage-specification wrappers, export-block wrappers,
and any other declaration acting as a context.  Each non-TU context records
its begin location and its parent. -/
inductive DeclContext where
  | TranslationUnit
  | LinkageSpec (Language : LinkageLang) (BeginLoc : SourceLocation)
      (Parent : DeclContext)
  | Export (BeginLoc : SourceLocation) (Parent : DeclContext)
  | Other (BeginLoc : SourceLocation) (Parent : DeclContext)
  deriving DecidableEq, Repr

/-- `isa<TranslationUnitDecl>(DC)`. -/
def DeclContext.isTranslationUnit : DeclContext → Bool
  | .TranslationUnit => true
  | _ => false

/-- `cast<Decl>(DC)->getBeginLoc()` (invalid for the translation unit, which
is never queried on the paths we model). -/
def DeclContext.getBeginLoc : DeclContext → SourceLocation
  | .TranslationUnit => SourceLocation.invalid
  | .LinkageSpec _ loc _ => loc
  | .Export loc _ => loc
  | .Other loc _ => loc

/-- Modelled from the spec: an ImportRecord / declaration "is exported" when
it is created lexically inside an export block (`Decl::isExported` is not
part of this repository slice). -/
def DeclContext.isInExportContext : DeclContext → Bool
  | .TranslationUnit => false
  | .LinkageSpec _ _ p => p.isInExportContext
  | .Export _ _ => true
  | .Other _ p => p.isInExportContext

/-- The diagnostics SemaModule.cpp can emit (identified by kind; message
payload formatting is out of scope). -/
inductive DiagKind where
  | ext_module_import_not_at_top_level_noop
  | err_module_import_not_at_top_level_fatal
  | note_module_import_not_at_top_level
  | ext_module_import_in_extern_c
  | note_extern_c_begins_here
  | err_module_interface_implementation_mismatch
  | err_module_decl_in_module_map_module
  | err_module_decl_in_header_module
  | err_module_redeclaration
  | note_prev_module_declaration
  | err_module_decl_not_at_start
  | note_global_module_introducer_missing
  | err_current_module_name_mismatch
  | err_module_redefinition
  | note_prev_module_definition
  | note_prev_module_definition_from_ast_file
  | err_module_not_defined
  | err_module_self_import
  | err_module_import_in_implementation
  | err_export_not_in_module_interface
  | err_export_within_export
  deriving DecidableEq, Repr

/-- One emitted diagnostic: anchor location and kind. -/
structure Diagnostic where
  Loc : SourceLocation
  Kind : DiagKind
  deriving DecidableEq, Repr

/-- First step of `checkModuleImportContext`: the single
`dyn_cast<LinkageSpecDecl>(DC)` — if the innermost context is a linkage
specification, record its begin location when it is `extern "C"` (the
`ExternCLoc` variable) and step to its parent. -/
def checkLinkageStrip1 : DeclContext → SourceLocation × DeclContext
  | .LinkageSpec .lang_c loc p => (loc, p)
  | .LinkageSpec .lang_cxx _ p => (SourceLocation.invalid, p)
  | dc => (SourceLocation.invalid, dc)

/-- The `while (isa<LinkageSpecDecl>(DC) || isa<ExportDecl>(DC))` loop:
strip all remaining linkage-specification and export-block wrappers
(without recording further extern-C locations). -/
def stripLinkageAndExport : DeclContext → DeclContext
  | .LinkageSpec _ _ p => stripLinkageAndExport p
  | .Export _ p => stripLinkageAndExport p
  | dc => dc

/-- The declaration context `checkModuleImportContext` is left with after
both stripping steps. -/
def strippedImportContext (DC : DeclContext) : DeclContext :=
  stripLinkageAndExport (checkLinkageStrip1 DC).2

/-- `checkModuleImportContext(S, M, ImportLoc, DC, FromInclude)`: validate
that an import/include of `M` is happening at the translation-unit scope,
modulo linkage-specification and export wrappers.  Returns the diagnostics
emitted (it mutates nothing else).  `Vis` is `S.VisibleModules`, consulted
through `Sema::isModuleVisible`. -/
def checkModuleImportContext (Vis : VisibleModuleSet) (M : Module)
    (ImportLoc : SourceLocation) (DC0 : DeclContext)
    (FromInclude : Bool) : List Diagnostic :=
  let ExternCLoc := (checkLinkageStrip1 DC0).1
  let DC := strippedImportContext DC0
  if DC.isTranslationUnit = false then
    [⟨ImportLoc,
      if FromInclude = true ∧ Vis.isVisible M = true then
        DiagKind.ext_module_import_not_at_top_level_noop
      else
        DiagKind.err_module_import_not_at_top_level_fatal⟩,
     ⟨DC.getBeginLoc, DiagKind.note_module_import_not_at_top_level⟩]
  else if M.IsExternC = false ∧ ExternCLoc.isValid = true then
    [⟨ImportLoc, DiagKind.ext_module_import_in_extern_c⟩,
     ⟨ExternCLoc, DiagKind.note_extern_c_begins_here⟩]
  else
    []

/-- `LangOptions::CompilingModuleKind`. -/
inductive CompilingModuleKind where
  | CMK_None
  | CMK_ModuleInterface
  | CMK_ModuleMap
  | CMK_HeaderModule
  deriving DecidableEq, Repr

/-- The language-option flags SemaModule.cpp consults. -/
structure LangOptions where
  CPlusPlusModules : Bool
  ModulesTS : Bool
  ModulesLocalVisibility : Bool
  CurrentModule : String
  CompilingModule : CompilingModuleKind
  deriving DecidableEq, Repr

/-- `LangOptions::getCompilingModule`. -/
def LangOptions.getCompilingModule (L : LangOptions) : CompilingModuleKind :=
  L.CompilingModule

/-- `LangOptions::isCompilingModule`: a module of some kind is being
compiled. -/
def LangOptions.isCompilingModule (L : LangOptions) : Bool :=
  decide (L.CompilingModule ≠ CompilingModuleKind.CMK_None)

/-- `LangOptions::trackLocalOwningModule` (header-inline collaborator):
local owning modules are tracked when compiling a module or under the
local-visibility / Modules TS dialects. -/
def LangOptions.trackLocalOwningModule (L : LangOptions) : Bool :=
  L.isCompilingModule || L.ModulesLocalVisibility || L.ModulesTS

/-- `Sema::TUKind` values relevant here. -/
inductive TranslationUnitKind where
  | TU_Complete
  | TU_Prefix
  | TU_Module
  deriving DecidableEq, Repr

/-- `Decl::ModuleOwnershipKind`. -/
inductive ModuleOwnershipKind where
  | Unowned
  | Visible
  | VisibleWhenImported
  | ModulePrivate
  deriving DecidableEq, Repr

/-- A parsed module-id path: (identifier name, identifier location) pairs. -/
abbrev ModuleIdPath := List (String × SourceLocation)

/-- `Path.front().second`, totalized with the invalid location (clang callers
never pass an empty path where `front()` is taken). -/
def pathFrontLoc (Path : ModuleIdPath) : SourceLocation :=
  match Path with
  | [] => SourceLocation.invalid
  | p :: _ => p.2

/-- The module-name flattening loop of `ActOnModuleDecl`: join the dotted
path components, inserting a `.` before each piece appended to a non-empty
accumulated name. -/
def flattenModuleName (Path : ModuleIdPath) : String :=
  List.foldl
    (fun acc piece =>
      (if acc ≠ "" then acc ++ "." else acc) ++ piece.1)
    "" Path

/-- One `Sema::ModuleScope` stack frame. -/
structure ModuleScope where
  BeginLoc : SourceLocation
  Mod : Module
  ModuleInterface : Bool
  OuterVisibleModules : VisibleModuleSet
  deriving DecidableEq, Repr

/-- An `ImportDecl` (explicit `ImportDecl::Create` or implicit
`ImportDecl::CreateImplicit`) as attached to a declaration context. -/
structure ImportDecl where
  StartLoc : SourceLocation
  ImportedModule : Module
  IdentifierLocs : List SourceLocation
  IsImplicit : Bool
  deriving DecidableEq, Repr

/-- The source-manager collaborator, treated as a read-only oracle.
`getLocForStartOfMainFile` stands for
`getLocForStartOfFile(getMainFileID())`. -/
structure SourceManager where
  getFileID : SourceLocation → Nat
  getLocForEndOfFile : Nat → SourceLocation
  getIncludeLoc : Nat → SourceLocation
  isWrittenInMainFile : SourceLocation → Bool
  MainFileID : Nat
  getLocForStartOfMainFile : SourceLocation

/-- The module-loader collaborator: `loadModule(loc, path, AllVisible,
isIncludeDirective)`, treated as a read-only resolver oracle. -/
structure ModuleLoader where
  loadModule : SourceLocation → ModuleIdPath → Bool → Option Module

/-- The mutable state SemaModule.cpp reads and writes: `Sema`'s own fields
plus the observable effects on its collaborators (module registry, AST
context declaration lists, module-initializer dependencies, loader
visibility calls, AST-consumer callbacks, emitted diagnostics).  The module
registry (`KnownModules`) maps names to modules; `Exports` carries the
mutable `Module::Exports` lists, keyed by module. -/
structure SemaState where
  LangOpts : LangOptions
  SourceMgr : SourceManager
  Loader : ModuleLoader
  TUKind : TranslationUnitKind
  ModuleScopes : List ModuleScope
  VisibleModules : VisibleModuleSet
  VisibleNamespaceCache : List String
  CurContext : DeclContext
  KnownModules : List (String × Module)
  Exports : Module → List (Module × Bool)
  CurContextDecls : List ImportDecl
  TUDecls : List ImportDecl
  OwnershipKind : DeclContext → ModuleOwnershipKind
  OwningModule : DeclContext → Option Module
  ModuleInitializers : List (Module × ImportDecl)
  LoaderVisibleCalls : List (Module × SourceLocation)
  ConsumerImplicitImports : List ImportDecl

  Diags : List Diagnostic

/-- `Sema::Diag(Loc, Kind)`: append one diagnostic. -/
def SemaState.Diag (S : SemaState) (Loc : SourceLocation) (K : DiagKind) :
    SemaState :=
  { S with Diags := S.Diags ++ [⟨Loc, K⟩] }

/-- `Sema::getCurrentModule`: module of the innermost scope frame, if any. -/
def SemaState.getCurrentModule (S : SemaState) : Option Module :=
  match S.ModuleScopes with
  | [] => none
  | back :: _ => some back.Mod

/-- `Sema::isModuleVisible` (header-inline collaborator): membership in the
visibility set. -/
def SemaState.isModuleVisible (S : SemaState) (M : Module) : Bool :=
  S.VisibleModules.isVisible M

/-- Pointwise update of a map-like field keyed by `DeclContext`. -/
def updateAtContext {β : Type} (f : DeclContext → β) (dc : DeclContext)
    (b : β) : DeclContext → β :=
  fun x => if x = dc then b else f x

/-- Modelled from the spec: the Module Registry's `findModule(name)` lookup
(the `ModuleMap` collaborator is not part of this repository slice). -/
def findKnownModule (known : List (String × Module)) (name : String) :
    Option Module :=
  (known.find? (fun p => decide (p.1 = name))).map Prod.snd

/-- Modelled from the spec: the Module Registry's
`createModuleForInterfaceUnit(loc, name, globalFragment)` — creates a fresh
top-level module of kind module-interface-unit defined at `loc`.  (Adopting
a pending global-module fragment as a submodule only reparents the fragment,
which no claim observes, so it is not tracked here.) -/
def createModuleForInterfaceUnit (Loc : SourceLocation) (Name : String) :
    Module :=
  { Info := { Name := Name, Kind := ModuleKind.ModuleInterfaceUnit,
              IsExternC := false, DefinitionLoc := Loc, ASTFile := none },
    Ancestors := [] }

/-!  ## `Sema::ActOnModuleDecl`  -/

/-- The `switch (getLangOpts().getCompilingModule())` prologue of
`ActOnModuleDecl` for the two non-returning cases: compiling a module
interface while seeing an implementation declaration is diagnosed and
auto-corrected to an interface declaration. -/
def moduleDeclAdjustMDK (S : SemaState) (ModuleLoc : SourceLocation)
    (IsImplementation : Bool) : SemaState × Bool :=
  if S.LangOpts.CompilingModule = CompilingModuleKind.CMK_ModuleInterface ∧
      IsImplementation = true then
    (S.Diag ModuleLoc DiagKind.err_module_interface_implementation_mismatch,
     false)
  else
    (S, IsImplementation)

/-- The body of `ActOnModuleDecl` after the compiling-mode checks and the
duplicate-module-declaration check, with the adopted global-module fragment
(if any) already extracted from the scope stack.  `IsImplementation` is the
(possibly auto-corrected) `MDK == ModuleDeclKind::Implementation`.  Returns
the new state and the returned declaration group (always null in this code:
`// FIXME: Create a ModuleDecl.`). -/
def moduleDeclIntroducerLoc (S : SemaState) : SourceLocation :=
  match S.ModuleScopes with
  | [] => S.SourceMgr.getLocForStartOfMainFile
  | back :: _ => back.BeginLoc

/-- In C++20, the module-declaration must be the first declaration if there
is no global module fragment; otherwise diagnose, with a fix-it note at the
place a `module;` introducer is missing when that location is valid. -/
def moduleDeclNotAtStartCheck (S : SemaState) (ModuleLoc : SourceLocation)
    (IsFirstDecl : Bool) (GlobalModuleFragment : Option Module) : SemaState :=
  if S.LangOpts.CPlusPlusModules = true ∧ IsFirstDecl = false ∧
      GlobalModuleFragment = none then
    if (moduleDeclIntroducerLoc S).isValid = true then
      (S.Diag ModuleLoc DiagKind.err_module_decl_not_at_start).Diag
        (moduleDeclIntroducerLoc S)
        DiagKind.note_global_module_introducer_missing
    else
      S.Diag ModuleLoc DiagKind.err_module_decl_not_at_start
  else
    S

def actOnModuleDeclRest (S0 : SemaState)
    (StartLoc ModuleLoc : SourceLocation) (IsImplementation : Bool)
    (Path : ModuleIdPath) (IsFirstDecl : Bool)
    (GlobalModuleFragment : Option Module) : SemaState × Option Unit :=
  let S1 :=
    moduleDeclNotAtStartCheck S0 ModuleLoc IsFirstDecl GlobalModuleFragment
  -- Flatten the dots in the module name.
  let ModuleName := flattenModuleName Path
  -- A module name specified on the command line must match.
  if S1.LangOpts.CurrentModule ≠ "" ∧
      S1.LangOpts.CurrentModule ≠ ModuleName then
    (S1.Diag (pathFrontLoc Path) DiagKind.err_current_module_name_mismatch,
     none)
  else
    let S2 :=
      { S1 with LangOpts := { S1.LangOpts with CurrentModule := ModuleName } }
    -- switch (MDK): resolve or create the module.
    let SM :=
      if IsImplementation = false then
        match findKnownModule S2.KnownModules ModuleName with
        | some M =>
          -- Redefinition of an already known module.
          let Sb := S2.Diag (pathFrontLoc Path) DiagKind.err_module_redefinition
          let Sc :=
            if M.DefinitionLoc.isValid = true then
              Sb.Diag M.DefinitionLoc DiagKind.note_prev_module_definition
            else
              match M.ASTFile with
              | some _ =>
                Sb.Diag M.DefinitionLoc
                  DiagKind.note_prev_module_definition_from_ast_file
              | none => Sb
          (Sc, M)
        | none =>
          let M := createModuleForInterfaceUnit ModuleLoc ModuleName
          ({ S2 with KnownModules := S2.KnownModules ++ [(ModuleName, M)] }, M)
      else
        match S2.Loader.loadModule ModuleLoc [(ModuleName, pathFrontLoc Path)]
            false with
        | some M => (S2, M)
        | none =>
          let Sb := S2.Diag ModuleLoc DiagKind.err_module_not_defined
          -- Create an empty module interface unit for error recovery.
          let M := createModuleForInterfaceUnit ModuleLoc ModuleName
          ({ Sb with KnownModules := Sb.KnownModules ++ [(ModuleName, M)] }, M)
    let S3 := SM.1
    let Mod := SM.2
    -- Push a new scope frame (snapshotting the visibility set under the
    -- local-visibility dialect; `std::move` empties the source), or reuse
    -- the global-module-fragment frame being adopted.
    let S4 :=
      if GlobalModuleFragment = none then
        if S3.LangOpts.ModulesLocalVisibility = true then
          { S3 with
            ModuleScopes :=
              { BeginLoc := StartLoc
                Mod := Mod
                ModuleInterface := IsImplementation = false
                OuterVisibleModules := S3.VisibleModules } :: S3.ModuleScopes
            VisibleModules := ⟨[]⟩ }
        else
          { S3 with
            ModuleScopes :=
              { BeginLoc := StartLoc
                Mod := Mod
                ModuleInterface := IsImplementation = false
                OuterVisibleModules := ⟨[]⟩ } :: S3.ModuleScopes }
      else
        match S3.ModuleScopes with
        | back :: rest =>
          { S3 with
            ModuleScopes :=
              { back with
                BeginLoc := StartLoc
                Mod := Mod
                ModuleInterface := IsImplementation = false } :: rest }
        | [] => S3   -- unreachable: the fragment came from the back frame
    let S5 :=
      { S4 with VisibleModules := S4.VisibleModules.setVisible Mod ModuleLoc }
    -- From now on the translation unit has an owning module; declarations
    -- are module-private unless explicitly exported.
    let S6 :=
      { S5 with
        OwnershipKind := updateAtContext S5.OwnershipKind
          DeclContext.TranslationUnit ModuleOwnershipKind.ModulePrivate
        OwningModule := updateAtContext S5.OwningModule
          DeclContext.TranslationUnit (some Mod) }
    (S6, none)

/-- `Sema::ActOnModuleDecl(StartLoc, ModuleLoc, MDK, Path, IsFirstDecl)`.
`IsImplementation` is `MDK == ModuleDeclKind::Implementation`.  The returned
declaration group is null on every path in this code version (the success
path reads `// FIXME: Create a ModuleDecl.  return nullptr;`). -/
def ActOnModuleDecl (S : SemaState) (StartLoc ModuleLoc : SourceLocation)
    (IsImplementation : Bool) (Path : ModuleIdPath) (IsFirstDecl : Bool) :
    SemaState × Option Unit :=
  if S.LangOpts.CompilingModule = CompilingModuleKind.CMK_ModuleMap then
    (S.Diag ModuleLoc DiagKind.err_module_decl_in_module_map_module, none)
  else if S.LangOpts.CompilingModule = CompilingModuleKind.CMK_HeaderModule
      then
    (S.Diag ModuleLoc DiagKind.err_module_decl_in_header_module, none)
  else
    let SK := moduleDeclAdjustMDK S ModuleLoc IsImplementation
    let S1 := SK.1
    let IsImpl := SK.2
    match S1.ModuleScopes with
    | back :: _ =>
      if back.Mod.Kind = ModuleKind.ModuleInterfaceUnit then
        -- Only one module-declaration is permitted per source file.
        let S2 := S1.Diag ModuleLoc DiagKind.err_module_redeclaration
        let S3 := S2.Diag (S2.VisibleModules.getImportLoc back.Mod)
          DiagKind.note_prev_module_declaration
        (S3, none)
      else
        actOnModuleDeclRest S1 StartLoc ModuleLoc IsImpl Path IsFirstDecl
          (if back.Mod.Kind = ModuleKind.GlobalModuleFragment then
            some back.Mod
          else
            none)
    | [] =>
      actOnModuleDeclRest S1 StartLoc ModuleLoc IsImpl Path IsFirstDecl none

/-!  ## `Sema::ActOnModuleImport` (resolved-module overload)  -/

/-- The per-path-component identifier-location loop of `ActOnModuleImport`:
walk the supplied path in parallel with the resolved module's ancestor
chain, dropping remaining identifiers once the chain runs out ("We need the
length to be consistent"). -/
def identLocsLoop : ModuleIdPath → Option Module → List SourceLocation
  | [], _ => []
  | _ :: _, none => []
  | p :: rest, some m => p.2 :: identLocsLoop rest m.Parent

/-- The header-import padding loop: one invalid location per module on the
remaining parent chain. -/
def padLocsChain : List ModuleData → List SourceLocation
  | [] => []
  | _ :: rest => SourceLocation.invalid :: padLocsChain rest

/-- `for (; ModCheck; ModCheck = ModCheck->Parent) push(SourceLocation())`. -/
def padLocs : Option Module → List SourceLocation
  | none => []
  | some m => SourceLocation.invalid :: padLocsChain m.Ancestors

/-- The `IdentifierLocs` list `ActOnModuleImport` attaches to the created
`ImportDecl`: the parallel walk over a non-empty path, or (for an elided
header-name path) padding with invalid locations along the whole chain. -/
def computeIdentifierLocs (Mod : Module) (Path : ModuleIdPath) :
    List SourceLocation :=
  match Path with
  | [] => padLocs (some Mod)
  | _ :: _ => identLocsLoop Path (some Mod)

/-- The self-import check of `ActOnModuleImport`: importing a module whose
top-level name equals the configured current module name is diagnosed
(self-import while compiling a module, import-in-implementation otherwise),
except that under the Modules TS an import from an implementation unit is
permitted. -/
def importSelfImportCheck (S : SemaState) (ImportLoc : SourceLocation)
    (Mod : Module) : SemaState :=
  if Mod.getTopLevelModuleName = S.LangOpts.CurrentModule ∧
      (S.LangOpts.isCompilingModule = true ∨ S.LangOpts.ModulesTS = false)
      then
    S.Diag ImportLoc
      (if S.LangOpts.isCompilingModule = true then
        DiagKind.err_module_self_import
      else
        DiagKind.err_module_import_in_implementation)
  else
    S

/-- Sequence initialization of the imported module before that of the
current module, if any (`Context.addModuleInitializer`). -/
def importRegisterInitializer (S : SemaState) (Import : ImportDecl) :
    SemaState :=
  match S.ModuleScopes with
  | [] => S
  | back :: _ =>
    { S with ModuleInitializers := S.ModuleInitializers ++ [(back.Mod, Import)] }

/-- `getCurrentModule()->Exports.emplace_back(Mod, false)`. -/
def appendExport (S : SemaState) (Cur Mod : Module) : SemaState :=
  { S with
    Exports := fun m =>
      if m = Cur then S.Exports m ++ [(Mod, false)] else S.Exports m }

/-- The re-export step of `ActOnModuleImport`: inside a module-interface
scope, an explicit `export` keyword or an import that is itself exported
appends the imported module to the current module's export list; an
`export` keyword outside a module-interface scope is a context error. -/
def importReExport (S : SemaState) (ExportLoc : SourceLocation)
    (Mod : Module) (IsExported : Bool) : SemaState :=
  if (match S.ModuleScopes with
      | [] => false
      | back :: _ => back.ModuleInterface) = true then
    if ExportLoc.isValid = true ∨ IsExported = true then
      match S.ModuleScopes with
      | [] => S   -- unreachable inside this branch
      | back :: _ => appendExport S back.Mod Mod
    else
      S
  else if ExportLoc.isValid = true then
    S.Diag ExportLoc DiagKind.err_export_not_in_module_interface
  else
    S

/-- The `ImportDecl::Create(Context, CurContext, StartLoc, Mod,
IdentifierLocs)` call of the resolved-module import overload. -/
def mkResolvedImport (StartLoc : SourceLocation) (Mod : Module)
    (Path : ModuleIdPath) : ImportDecl :=
  { StartLoc := StartLoc
    ImportedModule := Mod
    IdentifierLocs := computeIdentifierLocs Mod Path
    IsImplicit := false }

/-- The state after the first part of the resolved-module import overload:
make the module visible at the import location, run context validation (on
the state where the module is already visible), run the self-import check,
create the `ImportDecl` and attach it to the current context, and register
the module-initializer ordering dependency. -/
def importPrefixState (S : SemaState) (StartLoc ImportLoc : SourceLocation)
    (Mod : Module) (Path : ModuleIdPath) : SemaState :=
  let S1 :=
    { S with VisibleModules := S.VisibleModules.setVisible Mod ImportLoc }
  let S2 :=
    { S1 with
      Diags := S1.Diags ++
        checkModuleImportContext S1.VisibleModules Mod ImportLoc
          S1.CurContext false }
  let S3 := importSelfImportCheck S2 ImportLoc Mod
  let Import := mkResolvedImport StartLoc Mod Path
  let S4 := { S3 with CurContextDecls := S3.CurContextDecls ++ [Import] }
  importRegisterInitializer S4 Import

/-- `Sema::ActOnModuleImport(StartLoc, ExportLoc, ImportLoc, Mod, Path)` —
the overload taking an already-resolved module.  Returns the new state and
the (always valid) created `ImportDecl`. -/
def ActOnModuleImport (S : SemaState) (StartLoc ExportLoc ImportLoc :
    SourceLocation) (Mod : Module) (Path : ModuleIdPath) :
    SemaState × Option ImportDecl :=
  let S5 := importPrefixState S StartLoc ImportLoc Mod Path
  let S6 := importReExport S5 ExportLoc Mod
    (S5.CurContext.isInExportContext)
  (S6, some (mkResolvedImport StartLoc Mod Path))

/-!  ## `Sema::BuildModuleInclude`, `ActOnModuleInclude`  -/

/-- `Sema::BuildModuleInclude(DirectiveLoc, Mod)`: unless the directive sits
in the `#include` buffer of the module currently being built (TU kind is
`TU_Module` and the directive is written in the main file), create an
implicit `ImportDecl` on the translation unit, register it as a module
initializer of the current scope's module and announce it to the AST
consumer; in every case make the module visible through the module loader
and the visibility set at the directive location. -/
def BuildModuleInclude (S : SemaState) (DirectiveLoc : SourceLocation)
    (Mod : Module) : SemaState :=
  let IsInModuleIncludes :=
    S.TUKind = TranslationUnitKind.TU_Module ∧
      S.SourceMgr.isWrittenInMainFile DirectiveLoc = true
  let S1 :=
    if IsInModuleIncludes then
      S
    else
      let ImportD : ImportDecl :=
        { StartLoc := DirectiveLoc
          ImportedModule := Mod
          IdentifierLocs := [DirectiveLoc]
          IsImplicit := true }
      let Sa := importRegisterInitializer S ImportD
      let Sb := { Sa with TUDecls := Sa.TUDecls ++ [ImportD] }
      { Sb with
        ConsumerImplicitImports := Sb.ConsumerImplicitImports ++ [ImportD] }
  let S2 :=
    { S1 with
      LoaderVisibleCalls := S1.LoaderVisibleCalls ++ [(Mod, DirectiveLoc)] }
  { S2 with
    VisibleModules := S2.VisibleModules.setVisible Mod DirectiveLoc }

/-- `Sema::ActOnModuleInclude(DirectiveLoc, Mod)`. -/
def ActOnModuleInclude (S : SemaState) (DirectiveLoc : SourceLocation)
    (Mod : Module) : SemaState :=
  let S1 :=
    { S with
      Diags := S.Diags ++
        checkModuleImportContext S.VisibleModules Mod DirectiveLoc
          S.CurContext true }
  BuildModuleInclude S1 DirectiveLoc Mod

/-!  ## `Sema::ActOnModuleBegin`, `Sema::ActOnModuleEnd`  -/

/-- The lexical declaration-context chain from `CurContext` through its
parents (`for (auto *DC = CurContext; DC; DC = DC->getLexicalParent())`). -/
def contextChain : DeclContext → List DeclContext
  | .TranslationUnit => [.TranslationUnit]
  | .LinkageSpec l loc p => .LinkageSpec l loc p :: contextChain p
  | .Export loc p => .Export loc p :: contextChain p
  | .Other loc p => .Other loc p :: contextChain p

/-- Stamp every context of `chain` with value `b` in the map `f`. -/
def stampChain {β : Type} (f : DeclContext → β) (chain : List DeclContext)
    (b : β) : DeclContext → β :=
  List.foldl (fun g dc => updateAtContext g dc b) f chain

/-- The ownership-stamping walk of `ActOnModuleBegin`: every context on the
lexical chain becomes owned by the entered module, visible-when-imported
under the local-visibility dialect and plainly visible otherwise. -/
def stampEnterChain (S : SemaState) (Mod : Module) : SemaState :=
  { S with
    OwnershipKind := stampChain S.OwnershipKind (contextChain S.CurContext)
      (if S.LangOpts.ModulesLocalVisibility = true then
        ModuleOwnershipKind.VisibleWhenImported
      else
        ModuleOwnershipKind.Visible)
    OwningModule := stampChain S.OwningModule (contextChain S.CurContext)
      (some Mod) }

/-- The ownership-restoring walk of `ActOnModuleEnd`: every context on the
lexical chain is re-owned by whatever module is now current; if none, its
ownership kind is also reset to unowned. -/
def stampExitChain (S : SemaState) : SemaState :=
  { S with
    OwnershipKind :=
      match S.getCurrentModule with
      | some _ => S.OwnershipKind
      | none =>
        stampChain S.OwnershipKind (contextChain S.CurContext)
          ModuleOwnershipKind.Unowned
    OwningModule := stampChain S.OwningModule (contextChain S.CurContext)
      S.getCurrentModule }

/-- `Sema::ActOnModuleBegin(DirectiveLoc, Mod)`: context check, push a scope
frame (snapshotting the visibility set under local visibility; `std::move`
empties the source), make the module visible, and stamp the enclosing
context chain. -/
def ActOnModuleBegin (S : SemaState) (DirectiveLoc : SourceLocation)
    (Mod : Module) : SemaState :=
  let S1 :=
    { S with
      Diags := S.Diags ++
        checkModuleImportContext S.VisibleModules Mod DirectiveLoc
          S.CurContext true }
  let S2 :=
    if S1.LangOpts.ModulesLocalVisibility = true then
      { S1 with
        ModuleScopes :=
          { BeginLoc := SourceLocation.invalid
            Mod := Mod
            ModuleInterface := false
            OuterVisibleModules := S1.VisibleModules } :: S1.ModuleScopes
        VisibleModules := ⟨[]⟩ }
    else
      { S1 with
        ModuleScopes :=
          { BeginLoc := SourceLocation.invalid
            Mod := Mod
            ModuleInterface := false
            OuterVisibleModules := ⟨[]⟩ } :: S1.ModuleScopes }
  let S3 :=
    { S2 with VisibleModules := S2.VisibleModules.setVisible Mod DirectiveLoc }
  if S3.LangOpts.trackLocalOwningModule = true then
    stampEnterChain S3 Mod
  else
    S3

/-- The `DirectiveLoc` selection of `ActOnModuleEnd`: the `#include`
location when the end-of-module location is the end of a `#include`d file,
the EOM pragma location otherwise. -/
def endDirectiveLoc (SM : SourceManager) (EomLoc : SourceLocation) :
    SourceLocation :=
  let File := SM.getFileID EomLoc
  if EomLoc = SM.getLocForEndOfFile File then
    SM.getIncludeLoc File
  else
    EomLoc

/-- `Sema::ActOnModuleEnd(EomLoc, Mod)`: under local visibility restore the
snapshot saved in the innermost frame and clear the visible-namespace cache;
pop the frame; re-enter the module through `BuildModuleInclude` at the end
directive's location; restore the ownership of the enclosing context
chain. -/
def ActOnModuleEnd (S : SemaState) (EomLoc : SourceLocation) (Mod : Module) :
    SemaState :=
  let S1 :=
    if S.LangOpts.ModulesLocalVisibility = true then
      match S.ModuleScopes with
      | back :: _ =>
        { S with
          VisibleModules := back.OuterVisibleModules
          VisibleNamespaceCache := [] }
      | [] => { S with VisibleNamespaceCache := [] }
    else
      S
  let S2 := { S1 with ModuleScopes := S1.ModuleScopes.tail }
  let DirectiveLoc := endDirectiveLoc S2.SourceMgr EomLoc
  let S3 := BuildModuleInclude S2 DirectiveLoc Mod
  if S3.LangOpts.trackLocalOwningModule = true then
    stampExitChain S3
  else
    S3

/-!  ## Concrete fixtures for witnesses and counterexamples  -/

/-- A constant source manager for concrete test states. -/
def testSourceMgr : SourceManager :=
  { getFileID := fun _ => 0
    getLocForEndOfFile := fun _ => SourceLocation.invalid
    getIncludeLoc := fun _ => SourceLocation.invalid
    isWrittenInMainFile := fun _ => false
    MainFileID := 0
    getLocForStartOfMainFile := ⟨1⟩ }

/-- A module loader for concrete test states that resolves nothing. -/
def testLoader : ModuleLoader := { loadModule := fun _ _ _ => none }

/-- Baseline language options: C++20 modules, nothing being compiled. -/
def testLangOpts : LangOptions :=
  { CPlusPlusModules := true
    ModulesTS := false
    ModulesLocalVisibility := false
    CurrentModule := ""
    CompilingModule := CompilingModuleKind.CMK_None }

/-- A fresh top-level module for tests. -/
def mkTopModule (name : String) (kind : ModuleKind) (loc : Nat) : Module :=
  { Info :=
      { Name := name
        Kind := kind
        IsExternC := false
        DefinitionLoc := ⟨loc⟩
        ASTFile := none }
    Ancestors := [] }

def modA : Module := mkTopModule "A" ModuleKind.ModuleInterfaceUnit 10

def modB : Module := mkTopModule "B" ModuleKind.ModuleInterfaceUnit 20

def modX : Module := mkTopModule "X" ModuleKind.ModuleMapModule 40

/-- A submodule `A.Sub` (parent chain of length 2). -/
def subModule : Module :=
  { Info :=
      { Name := "Sub"
        Kind := ModuleKind.ModuleMapModule
        IsExternC := false
        DefinitionLoc := ⟨30⟩
        ASTFile := none }
    Ancestors :=
      [{ Name := "A"
         Kind := ModuleKind.ModuleMapModule
         IsExternC := false
         DefinitionLoc := ⟨10⟩
         ASTFile := none }] }

/-- An empty baseline semantic-analysis state. -/
def testState : SemaState :=
  { LangOpts := testLangOpts
    SourceMgr := testSourceMgr
    Loader := testLoader
    TUKind := TranslationUnitKind.TU_Complete
    ModuleScopes := []
    VisibleModules := ⟨[]⟩
    VisibleNamespaceCache := []
    CurContext := DeclContext.TranslationUnit
    KnownModules := []
    Exports := fun _ => []
    CurContextDecls := []
    TUDecls := []
    OwnershipKind := fun _ => ModuleOwnershipKind.Unowned
    OwningModule := fun _ => none
    ModuleInitializers := []
    LoaderVisibleCalls := []
    ConsumerImplicitImports := []
    Diags := [] }

/-!  ## Helper lemmas about the visibility set  -/

theorem setVisible_isVisible (V : VisibleModuleSet) (M : Module)
    (L : SourceLocation) : (V.setVisible M L).isVisible M = true := by
  simp [VisibleModuleSet.setVisible, VisibleModuleSet.isVisible]

theorem setVisible_getImportLoc (V : VisibleModuleSet) (M : Module)
    (L : SourceLocation) : (V.setVisible M L).getImportLoc M = L := by
  simp [VisibleModuleSet.setVisible, VisibleModuleSet.getImportLoc]

theorem setVisible_isVisible_ne (V : VisibleModuleSet) (M M' : Module)
    (L : SourceLocation) (h : M' ≠ M) :
    (V.setVisible M L).isVisible M' = V.isVisible M' := by
  obtain ⟨l⟩ := V
  simp only [VisibleModuleSet.setVisible, VisibleModuleSet.isVisible,
    List.any_cons]
  rw [decide_eq_false (fun e => h e.symm), Bool.false_or]
  induction l with
  | nil => rfl
  | cons a t ih =>
    by_cases ha : a.1 = M
    · rw [List.filter_cons_of_neg (by simp [ha]), ih, List.any_cons,
        decide_eq_false (fun e => h (e.symm.trans ha)), Bool.false_or]
    · rw [List.filter_cons_of_pos (by simp [ha]), List.any_cons,
        List.any_cons, ih]

/-!  ## Helper lemmas about the import-handler steps  -/

theorem importSelfImportCheck_eq (S : SemaState) (ImportLoc : SourceLocation)
    (Mod : Module) :
    importSelfImportCheck S ImportLoc Mod =
      { S with
        Diags := S.Diags ++
          (if Mod.getTopLevelModuleName = S.LangOpts.CurrentModule ∧
              (S.LangOpts.isCompilingModule = true ∨
                S.LangOpts.ModulesTS = false) then
            [⟨ImportLoc,
              if S.LangOpts.isCompilingModule = true then
                DiagKind.err_module_self_import
              else
                DiagKind.err_module_import_in_implementation⟩]
          else
            []) } := by
  unfold importSelfImportCheck SemaState.Diag
  split <;> simp_all

theorem importRegisterInitializer_eq (S : SemaState) (I : ImportDecl) :
    importRegisterInitializer S I =
      { S with
        ModuleInitializers := S.ModuleInitializers ++
          (match S.ModuleScopes with
           | [] => []
           | back :: _ => [(back.Mod, I)]) } := by
  obtain ⟨lo, sm, ld, tk, ms, vm, vc, cc, km, ex, cd, td, ok, om, mi, lv, ci,
    dg⟩ := S
  unfold importRegisterInitializer
  cases ms <;> simp

theorem importReExport_VisibleModules (S : SemaState) (el : SourceLocation)
    (M : Module) (ex : Bool) :
    (importReExport S el M ex).VisibleModules = S.VisibleModules := by
  unfold importReExport appendExport SemaState.Diag
  repeat' split
  all_goals rfl

theorem importReExport_CurContextDecls (S : SemaState) (el : SourceLocation)
    (M : Module) (ex : Bool) :
    (importReExport S el M ex).CurContextDecls = S.CurContextDecls := by
  unfold importReExport appendExport SemaState.Diag
  repeat' split
  all_goals rfl

theorem importReExport_ModuleScopes (S : SemaState) (el : SourceLocation)
    (M : Module) (ex : Bool) :
    (importReExport S el M ex).ModuleScopes = S.ModuleScopes := by
  unfold importReExport appendExport SemaState.Diag
  repeat' split
  all_goals rfl

theorem importReExport_SourceMgr (S : SemaState) (el : SourceLocation)
    (M : Module) (ex : Bool) :
    (importReExport S el M ex).SourceMgr = S.SourceMgr := by
  unfold importReExport appendExport SemaState.Diag
  repeat' split
  all_goals rfl

theorem importReExport_LangOpts (S : SemaState) (el : SourceLocation)
    (M : Module) (ex : Bool) :
    (importReExport S el M ex).LangOpts = S.LangOpts := by
  unfold importReExport appendExport SemaState.Diag
  repeat' split
  all_goals rfl

theorem importReExport_TUKind (S : SemaState) (el : SourceLocation)
    (M : Module) (ex : Bool) :
    (importReExport S el M ex).TUKind = S.TUKind := by
  unfold importReExport appendExport SemaState.Diag
  repeat' split
  all_goals rfl

theorem importReExport_Cache (S : SemaState) (el : SourceLocation)
    (M : Module) (ex : Bool) :
    (importReExport S el M ex).VisibleNamespaceCache =
      S.VisibleNamespaceCache := by
  unfold importReExport appendExport SemaState.Diag
  repeat' split
  all_goals rfl

theorem importReExport_KnownModules (S : SemaState) (el : SourceLocation)
    (M : Module) (ex : Bool) :
    (importReExport S el M ex).KnownModules = S.KnownModules := by
  unfold importReExport appendExport SemaState.Diag
  repeat' split
  all_goals rfl

theorem importReExport_Diags (S : SemaState) (el : SourceLocation)
    (M : Module) (ex : Bool) :
    ∃ ds, (importReExport S el M ex).Diags = S.Diags ++ ds := by
  unfold importReExport appendExport SemaState.Diag
  repeat' split
  all_goals first
    | exact ⟨_, rfl⟩
    | exact ⟨[], (List.append_nil _).symm⟩

/-- The self-import diagnostic list produced by `importSelfImportCheck` on a
state whose language options are those of `S`. -/
def selfImportDiags (S : SemaState) (ImportLoc : SourceLocation)
    (Mod : Module) : List Diagnostic :=
  if Mod.getTopLevelModuleName = S.LangOpts.CurrentModule ∧
      (S.LangOpts.isCompilingModule = true ∨ S.LangOpts.ModulesTS = false)
      then
    [⟨ImportLoc,
      if S.LangOpts.isCompilingModule = true then
        DiagKind.err_module_self_import
      else
        DiagKind.err_module_import_in_implementation⟩]
  else
    []

theorem importPrefixState_eq (S : SemaState) (sl il : SourceLocation)
    (M : Module) (p : ModuleIdPath) :
    importPrefixState S sl il M p =
      { S with
        VisibleModules := S.VisibleModules.setVisible M il
        Diags := S.Diags ++
          checkModuleImportContext (S.VisibleModules.setVisible M il) M il
            S.CurContext false ++ selfImportDiags S il M
        CurContextDecls := S.CurContextDecls ++ [mkResolvedImport sl M p]
        ModuleInitializers := S.ModuleInitializers ++
          (match S.ModuleScopes with
           | [] => []
           | back :: _ => [(back.Mod, mkResolvedImport sl M p)]) } := by
  simp only [importPrefixState, importSelfImportCheck_eq,
    importRegisterInitializer_eq, selfImportDiags, List.append_assoc]

theorem ActOnModuleImport_snd (S : SemaState) (sl el il : SourceLocation)
    (M : Module) (p : ModuleIdPath) :
    (ActOnModuleImport S sl el il M p).2 = some (mkResolvedImport sl M p) :=
  rfl

theorem ActOnModuleImport_VisibleModules (S : SemaState)
    (sl el il : SourceLocation) (M : Module) (p : ModuleIdPath) :
    (ActOnModuleImport S sl el il M p).1.VisibleModules =
      S.VisibleModules.setVisible M il := by
  simp only [ActOnModuleImport, importReExport_VisibleModules,
    importPrefixState_eq]

theorem ActOnModuleImport_CurContextDecls (S : SemaState)
    (sl el il : SourceLocation) (M : Module) (p : ModuleIdPath) :
    (ActOnModuleImport S sl el il M p).1.CurContextDecls =
      S.CurContextDecls ++ [mkResolvedImport sl M p] := by
  simp only [ActOnModuleImport, importReExport_CurContextDecls,
    importPrefixState_eq]

theorem ActOnModuleImport_ModuleScopes (S : SemaState)
    (sl el il : SourceLocation) (M : Module) (p : ModuleIdPath) :
    (ActOnModuleImport S sl el il M p).1.ModuleScopes = S.ModuleScopes := by
  simp only [ActOnModuleImport, importReExport_ModuleScopes,
    importPrefixState_eq]

theorem ActOnModuleImport_SourceMgr (S : SemaState)
    (sl el il : SourceLocation) (M : Module) (p : ModuleIdPath) :
    (ActOnModuleImport S sl el il M p).1.SourceMgr = S.SourceMgr := by
  simp only [ActOnModuleImport, importReExport_SourceMgr,
    importPrefixState_eq]

theorem ActOnModuleImport_LangOpts (S : SemaState)
    (sl el il : SourceLocation) (M : Module) (p : ModuleIdPath) :
    (ActOnModuleImport S sl el il M p).1.LangOpts = S.LangOpts := by
  simp only [ActOnModuleImport, importReExport_LangOpts,
    importPrefixState_eq]

theorem ActOnModuleImport_TUKind (S : SemaState)
    (sl el il : SourceLocation) (M : Module) (p : ModuleIdPath) :
    (ActOnModuleImport S sl el il M p).1.TUKind = S.TUKind := by
  simp only [ActOnModuleImport, importReExport_TUKind,
    importPrefixState_eq]

theorem ActOnModuleImport_Cache (S : SemaState)
    (sl el il : SourceLocation) (M : Module) (p : ModuleIdPath) :
    (ActOnModuleImport S sl el il M p).1.VisibleNamespaceCache =
      S.VisibleNamespaceCache := by
  simp only [ActOnModuleImport, importReExport_Cache, importPrefixState_eq]

theorem ActOnModuleImport_Diags (S : SemaState) (sl el il : SourceLocation)
    (M : Module) (p : ModuleIdPath) :
    ∃ ds,
      (ActOnModuleImport S sl el il M p).1.Diags =
        S.Diags ++
          checkModuleImportContext (S.VisibleModules.setVisible M il) M il
            S.CurContext false ++ selfImportDiags S il M ++ ds := by
  simp only [ActOnModuleImport]
  obtain ⟨ds, hds⟩ :=
    importReExport_Diags (importPrefixState S sl il M p) el M
      ((importPrefixState S sl il M p).CurContext.isInExportContext)
  refine ⟨ds, ?_⟩
  rw [hds, importPrefixState_eq]

/-!  ## Claim theorems  -/

/-- C6: whenever `checkModuleImportContext` finds that the declaration
context, stripped of linkage-specification and export-block wrappers, is not
the translation unit, it emits the non-fatal no-op variant exactly when the
check came from an inclusion of an already-visible module and the fatal
variant otherwise, in both cases followed by a note pointing at the
offending enclosing declaration. -/
theorem C6_not_at_top_level_diag_selection (Vis : VisibleModuleSet)
    (M : Module) (ImportLoc : SourceLocation) (DC : DeclContext)
    (FromInclude : Bool)
    (h : (strippedImportContext DC).isTranslationUnit = false) :
    checkModuleImportContext Vis M ImportLoc DC FromInclude =
      [⟨ImportLoc,
        if FromInclude = true ∧ Vis.isVisible M = true then
          DiagKind.ext_module_import_not_at_top_level_noop
        else
          DiagKind.err_module_import_not_at_top_level_fatal⟩,
       ⟨(strippedImportContext DC).getBeginLoc,
        DiagKind.note_module_import_not_at_top_level⟩] := by
  simp only [checkModuleImportContext, h, if_true]

/-- Witness for C6 at a concrete input: an inclusion-triggered check of an
already-visible module below an ordinary declaration context produces the
no-op diagnostic plus the note. -/
theorem C6_witness :
    (strippedImportContext
        (DeclContext.Other ⟨1⟩ DeclContext.TranslationUnit)).isTranslationUnit
      = false ∧
    checkModuleImportContext ⟨[(modA, ⟨2⟩)]⟩ modA ⟨4⟩
        (DeclContext.Other ⟨1⟩ DeclContext.TranslationUnit) true =
      [⟨⟨4⟩, DiagKind.ext_module_import_not_at_top_level_noop⟩,
       ⟨⟨1⟩, DiagKind.note_module_import_not_at_top_level⟩] := by
  refine ⟨by decide, ?_⟩
  rw [C6_not_at_top_level_diag_selection ⟨[(modA, ⟨2⟩)]⟩ modA ⟨4⟩
    (DeclContext.Other ⟨1⟩ DeclContext.TranslationUnit) true (by decide)]
  decide

/-- C7: after the resolved-module import overload runs for module `M` at
the import location `il`, `M` is visible and the visibility set's recorded
visible-since location for `M` is exactly `il`. -/
theorem C7_import_visibility_location (S : SemaState)
    (sl el il : SourceLocation) (M : Module) (p : ModuleIdPath) :
    (ActOnModuleImport S sl el il M p).1.VisibleModules.isVisible M = true ∧
    (ActOnModuleImport S sl el il M p).1.VisibleModules.getImportLoc M = il
    := by
  rw [ActOnModuleImport_VisibleModules]
  exact ⟨setVisible_isVisible _ _ _, setVisible_getImportLoc _ _ _⟩

/-- C9: the resolved-module import overload marks the module visible before
the context-validation and self-import checks run (their diagnostics are
computed against the already-updated visibility set), and regardless of any
diagnostics it always constructs the `ImportDecl`, attaches it to the
current declaration context, and returns it as a success result. -/
theorem C9_import_always_succeeds (S : SemaState) (sl el il : SourceLocation)
    (M : Module) (p : ModuleIdPath) :
    (ActOnModuleImport S sl el il M p).2 = some (mkResolvedImport sl M p) ∧
    (ActOnModuleImport S sl el il M p).1.CurContextDecls =
      S.CurContextDecls ++ [mkResolvedImport sl M p] ∧
    (ActOnModuleImport S sl el il M p).1.VisibleModules =
      S.VisibleModules.setVisible M il ∧
    (∃ ds,
      (ActOnModuleImport S sl el il M p).1.Diags =
        S.Diags ++
          checkModuleImportContext (S.VisibleModules.setVisible M il) M il
            S.CurContext false ++ selfImportDiags S il M ++ ds) :=
  ⟨ActOnModuleImport_snd S sl el il M p,
   ActOnModuleImport_CurContextDecls S sl el il M p,
   ActOnModuleImport_VisibleModules S sl el il M p,
   ActOnModuleImport_Diags S sl el il M p⟩

/-!  ## Identifier-location list lengths (for C3)  -/

theorem optChainLength_none : optChainLength none = 0 := rfl

theorem optChainLength_some (m : Module) :
    optChainLength (some m) = m.Ancestors.length + 1 := rfl

theorem optChainLength_parent (m : Module) :
    optChainLength m.Parent = m.Ancestors.length := by
  unfold Module.Parent
  cases h : m.Ancestors with
  | nil => simp [optChainLength]
  | cons a rest => simp [optChainLength, Module.ancestorChainLength]

theorem identLocsLoop_length (p : ModuleIdPath) :
    ∀ mc : Option Module,
      (identLocsLoop p mc).length = min p.length (optChainLength mc) := by
  induction p with
  | nil => intro mc; simp [identLocsLoop]
  | cons a t ih =>
    intro mc
    cases mc with
    | none => simp [identLocsLoop, optChainLength]
    | some m =>
      simp only [identLocsLoop, List.length_cons, ih m.Parent,
        optChainLength_parent, optChainLength_some]
      omega

theorem padLocsChain_length (l : List ModuleData) :
    (padLocsChain l).length = l.length := by
  induction l with
  | nil => rfl
  | cons a t ih => simp [padLocsChain, ih]

theorem computeIdentifierLocs_length (M : Module) (p : ModuleIdPath) :
    (computeIdentifierLocs M p).length =
      if p = [] then M.ancestorChainLength
      else min p.length M.ancestorChainLength := by
  cases p with
  | nil =>
    simp [computeIdentifierLocs, padLocs, padLocsChain_length,
      Module.ancestorChainLength]
  | cons a t =>
    simp [computeIdentifierLocs, identLocsLoop_length,
      Module.ancestorChainLength, optChainLength_some]

/-- C3 counterexample: importing the resolved submodule `A.Sub` (ancestor
chain of length 2) with the one-component path `Sub` attaches an
identifier-location list of length 1, not 2, so the list length does not
always equal the ancestor-chain length. -/
theorem C3_counterexample :
    ((ActOnModuleImport testState ⟨3⟩ ⟨0⟩ ⟨4⟩ subModule
        [("Sub", ⟨5⟩)]).2).map (fun d => d.IdentifierLocs.length) = some 1 ∧
    subModule.ancestorChainLength = 2 :=
  ⟨rfl, rfl⟩

/-- C3 (amended): the per-component identifier-location list attached to the
created `ImportDecl` has length equal to the ancestor-chain length when the
path was elided (padded with empty locations), and otherwise has length
`min (path length) (chain length)` — the path is walked in parallel with
the ancestor chain and surplus identifiers are dropped, so the list is
shorter than the ancestor chain when a non-empty path has fewer components
than the chain. -/
theorem C3_identifier_locs_length (S : SemaState) (sl el il : SourceLocation)
    (M : Module) (p : ModuleIdPath) :
    ((ActOnModuleImport S sl el il M p).2).map
        (fun d => d.IdentifierLocs.length) =
      some (if p = [] then M.ancestorChainLength
            else min p.length M.ancestorChainLength) := by
  rw [ActOnModuleImport_snd]
  simp [mkResolvedImport, computeIdentifierLocs_length]

/-- C1: when the resolved module's top-level name equals the configured
current module name and a module is being compiled, the import emits the
fatal self-import diagnostic at the import location, and exactly one
`ImportDecl` (the one created for diagnostic purposes) is attached to the
current declaration context. -/
theorem C1_self_import_rejected (S : SemaState) (sl el il : SourceLocation)
    (M : Module) (p : ModuleIdPath)
    (hname : M.getTopLevelModuleName = S.LangOpts.CurrentModule)
    (hcm : S.LangOpts.isCompilingModule = true) :
    (∃ ds, (ActOnModuleImport S sl el il M p).1.Diags = S.Diags ++ ds ∧
      Diagnostic.mk il DiagKind.err_module_self_import ∈ ds) ∧
    (ActOnModuleImport S sl el il M p).1.CurContextDecls =
      S.CurContextDecls ++ [mkResolvedImport sl M p] := by
  refine ⟨?_, ActOnModuleImport_CurContextDecls S sl el il M p⟩
  obtain ⟨ds, hds⟩ := ActOnModuleImport_Diags S sl el il M p
  have hself : selfImportDiags S il M =
      [⟨il, DiagKind.err_module_self_import⟩] := by
    simp [selfImportDiags, hname, hcm]
  refine ⟨checkModuleImportContext (S.VisibleModules.setVisible M il) M il
      S.CurContext false ++ selfImportDiags S il M ++ ds, ?_, ?_⟩
  · rw [hds]; simp [List.append_assoc]
  · simp [hself]

/-- A state compiling module interface `A` with current module name `A`. -/
def compilingAState : SemaState :=
  { testState with
    LangOpts :=
      { testLangOpts with
        CurrentModule := "A"
        CompilingModule := CompilingModuleKind.CMK_ModuleInterface } }

/-- Witness for C1 at a concrete input: importing `A` while compiling
module `A`. -/
theorem C1_witness :
    modA.getTopLevelModuleName = compilingAState.LangOpts.CurrentModule ∧
    compilingAState.LangOpts.isCompilingModule = true ∧
    ((∃ ds,
        (ActOnModuleImport compilingAState ⟨3⟩ ⟨0⟩ ⟨4⟩ modA
            [("A", ⟨4⟩)]).1.Diags = compilingAState.Diags ++ ds ∧
        Diagnostic.mk ⟨4⟩ DiagKind.err_module_self_import ∈ ds) ∧
      (ActOnModuleImport compilingAState ⟨3⟩ ⟨0⟩ ⟨4⟩ modA
          [("A", ⟨4⟩)]).1.CurContextDecls =
        compilingAState.CurContextDecls ++
          [mkResolvedImport ⟨3⟩ modA [("A", ⟨4⟩)]]) :=
  ⟨by decide, by decide,
   C1_self_import_rejected compilingAState ⟨3⟩ ⟨0⟩ ⟨4⟩ modA [("A", ⟨4⟩)]
     (by decide) (by decide)⟩

/-!  ## Re-export behaviour (for C5)  -/

theorem importReExport_exports_pos (S : SemaState) (el : SourceLocation)
    (M : Module) (ex : Bool) (back : ModuleScope) (rest : List ModuleScope)
    (hscope : S.ModuleScopes = back :: rest)
    (hint : back.ModuleInterface = true)
    (hcond : el.isValid = true ∨ ex = true) :
    (importReExport S el M ex).Exports back.Mod =
      S.Exports back.Mod ++ [(M, false)] := by
  unfold importReExport appendExport
  rw [hscope]
  simp [hint, hcond]

theorem importReExport_exports_unchanged (S : SemaState)
    (el : SourceLocation) (M : Module) (ex : Bool)
    (hel : el.isValid = false) (hex : ex = false) :
    ∀ m, (importReExport S el M ex).Exports m = S.Exports m := by
  intro m
  unfold importReExport appendExport SemaState.Diag
  repeat' split
  all_goals simp_all

theorem importReExport_no_interface_diag (S : SemaState)
    (el : SourceLocation) (M : Module) (ex : Bool)
    (hni : (match S.ModuleScopes with
            | [] => false
            | back :: _ => back.ModuleInterface) = false)
    (hel : el.isValid = true) :
    (importReExport S el M ex).Diags =
      S.Diags ++ [⟨el, DiagKind.err_export_not_in_module_interface⟩] := by
  unfold importReExport SemaState.Diag
  rw [hni]
  simp [hel]

/-- C5: inside a module-interface scope, an import with a valid `export`
keyword location or an import that is itself exported appends the imported
module to the current module's export list; with neither, the export list
is untouched; with an `export` keyword but no enclosing module-interface
scope, the context error is emitted and the import still succeeds. -/
theorem C5_reexport_propagation (S : SemaState) (sl el il : SourceLocation)
    (M : Module) (p : ModuleIdPath) :
    (∀ back rest, S.ModuleScopes = back :: rest →
      back.ModuleInterface = true →
      ((el.isValid = true ∨ S.CurContext.isInExportContext = true →
        (ActOnModuleImport S sl el il M p).1.Exports back.Mod =
          S.Exports back.Mod ++ [(M, false)]) ∧
       (el.isValid = false → S.CurContext.isInExportContext = false →
        ∀ m, (ActOnModuleImport S sl el il M p).1.Exports m =
          S.Exports m))) ∧
    ((∀ back rest, S.ModuleScopes = back :: rest →
        back.ModuleInterface = false) →
      el.isValid = true →
      ((∃ ds, (ActOnModuleImport S sl el il M p).1.Diags = S.Diags ++ ds ∧
          Diagnostic.mk el DiagKind.err_export_not_in_module_interface ∈ ds) ∧
       (ActOnModuleImport S sl el il M p).2 =
         some (mkResolvedImport sl M p))) := by
  constructor
  · intro back rest hscope hint
    constructor
    · intro hcond
      simp only [ActOnModuleImport, importPrefixState_eq]
      rw [importReExport_exports_pos _ el M _ back rest (by exact hscope)
        hint (by exact hcond)]
    · intro hel hex m
      simp only [ActOnModuleImport, importPrefixState_eq]
      rw [importReExport_exports_unchanged _ el M _ hel (by exact hex) m]
  · intro hni hel
    refine ⟨?_, ActOnModuleImport_snd S sl el il M p⟩
    simp only [ActOnModuleImport, importPrefixState_eq]
    rw [importReExport_no_interface_diag _ el M _ ?hmatch hel]
    case hmatch =>
      show (match S.ModuleScopes with
            | [] => false
            | back :: _ => back.ModuleInterface) = false
      cases hS : S.ModuleScopes with
      | nil => rfl
      | cons back rest => simpa using hni back rest hS
    refine ⟨checkModuleImportContext (S.VisibleModules.setVisible M il) M il
        S.CurContext false ++ selfImportDiags S il M ++
        [⟨el, DiagKind.err_export_not_in_module_interface⟩], ?_, by simp⟩
    simp [List.append_assoc]

/-- A state whose innermost module scope is the interface unit of `A`. -/
def interfaceScopeState : SemaState :=
  { testState with
    ModuleScopes :=
      [{ BeginLoc := ⟨2⟩
         Mod := modA
         ModuleInterface := true
         OuterVisibleModules := ⟨[]⟩ }] }

/-- Witness for C5 at concrete inputs: `export import B;` inside interface
`A` puts `B` on `A`'s export list exactly once; plain `import B;` leaves the
export list empty; `export import B;` outside any module-interface scope
emits the context error and still returns the import declaration. -/
theorem C5_witness :
    (ActOnModuleImport interfaceScopeState ⟨3⟩ ⟨3⟩ ⟨4⟩ modB
        [("B", ⟨4⟩)]).1.Exports modA = [(modB, false)] ∧
    (((ActOnModuleImport interfaceScopeState ⟨3⟩ ⟨3⟩ ⟨4⟩ modB
        [("B", ⟨4⟩)]).1.Exports modA).filter
          (fun q => decide (q.1 = modB))).length = 1 ∧
    (ActOnModuleImport interfaceScopeState ⟨3⟩ ⟨0⟩ ⟨4⟩ modB
        [("B", ⟨4⟩)]).1.Exports modA = [] ∧
    (∃ ds, (ActOnModuleImport testState ⟨3⟩ ⟨3⟩ ⟨4⟩ modB
        [("B", ⟨4⟩)]).1.Diags = testState.Diags ++ ds ∧
      Diagnostic.mk ⟨3⟩ DiagKind.err_export_not_in_module_interface ∈ ds) ∧
    (ActOnModuleImport testState ⟨3⟩ ⟨3⟩ ⟨4⟩ modB [("B", ⟨4⟩)]).2 =
      some (mkResolvedImport ⟨3⟩ modB [("B", ⟨4⟩)]) := by
  have h1 :=
    ((C5_reexport_propagation interfaceScopeState ⟨3⟩ ⟨3⟩ ⟨4⟩ modB
        [("B", ⟨4⟩)]).1
      { BeginLoc := ⟨2⟩
        Mod := modA
        ModuleInterface := true
        OuterVisibleModules := ⟨[]⟩ } [] rfl rfl).1
      (Or.inl (by decide))
  have h2 :=
    ((C5_reexport_propagation interfaceScopeState ⟨3⟩ ⟨0⟩ ⟨4⟩ modB
        [("B", ⟨4⟩)]).1
      { BeginLoc := ⟨2⟩
        Mod := modA
        ModuleInterface := true
        OuterVisibleModules := ⟨[]⟩ } [] rfl rfl).2
      (by decide) (by decide) modA
  have h3 :=
    (C5_reexport_propagation testState ⟨3⟩ ⟨3⟩ ⟨4⟩ modB [("B", ⟨4⟩)]).2
      (by intro back rest h; simp [testState] at h) (by decide)
  refine ⟨?_, ?_, ?_, h3.1, h3.2⟩
  · rw [h1]; rfl
  · rw [h1]; decide
  · rw [h2]; rfl

/-!  ## Module-declaration behaviour (for C4 and C8)  -/

theorem moduleDeclAdjustMDK_eq (S : SemaState) (ml : SourceLocation)
    (b : Bool) :
    moduleDeclAdjustMDK S ml b =
      ({ S with
         Diags := S.Diags ++
           (if S.LangOpts.CompilingModule =
                CompilingModuleKind.CMK_ModuleInterface ∧ b = true then
             [⟨ml, DiagKind.err_module_interface_implementation_mismatch⟩]
           else
             []) },
       if S.LangOpts.CompilingModule =
            CompilingModuleKind.CMK_ModuleInterface ∧ b = true then
         false
       else
         b) := by
  unfold moduleDeclAdjustMDK SemaState.Diag
  split <;> simp_all

theorem moduleDeclNotAtStartCheck_diagsOnly (S : SemaState)
    (ml : SourceLocation) (f : Bool) (g : Option Module) :
    ∃ ds, moduleDeclNotAtStartCheck S ml f g =
      { S with Diags := S.Diags ++ ds } := by
  unfold moduleDeclNotAtStartCheck SemaState.Diag
  split
  · split
    · exact ⟨[⟨ml, DiagKind.err_module_decl_not_at_start⟩,
        ⟨moduleDeclIntroducerLoc S,
         DiagKind.note_global_module_introducer_missing⟩], by simp⟩
    · exact ⟨[⟨ml, DiagKind.err_module_decl_not_at_start⟩], rfl⟩
  · exact ⟨[], by simp⟩

theorem actOnModuleDeclRest_name_mismatch (S : SemaState)
    (sl ml : SourceLocation) (isImpl : Bool) (p : ModuleIdPath) (f : Bool)
    (g : Option Module)
    (hcur : S.LangOpts.CurrentModule ≠ "")
    (hmm : S.LangOpts.CurrentModule ≠ flattenModuleName p) :
    ∃ ds,
      actOnModuleDeclRest S sl ml isImpl p f g =
        ({ S with
           Diags := S.Diags ++ ds ++
             [⟨pathFrontLoc p,
               DiagKind.err_current_module_name_mismatch⟩] },
         none) := by
  obtain ⟨ds0, h0⟩ := moduleDeclNotAtStartCheck_diagsOnly S ml f g
  refine ⟨ds0, ?_⟩
  simp only [actOnModuleDeclRest]
  rw [h0, if_pos (And.intro hcur hmm), SemaState.Diag]

/-- C4: a second module declaration while a module-interface-unit frame is
already on top of the module scope stack fails with a null result, emits
exactly the duplicate-declaration diagnostic followed by a note at the
prior declaration's recorded import location, creates no module (the
registry is unchanged), and leaves the scope stack unchanged. -/
theorem C4_duplicate_module_decl (S : SemaState) (sl ml : SourceLocation)
    (isImpl : Bool) (p : ModuleIdPath) (isFirst : Bool)
    (back : ModuleScope) (rest : List ModuleScope)
    (hscope : S.ModuleScopes = back :: rest)
    (hkind : back.Mod.Kind = ModuleKind.ModuleInterfaceUnit)
    (h1 : S.LangOpts.CompilingModule ≠ CompilingModuleKind.CMK_ModuleMap)
    (h2 : S.LangOpts.CompilingModule ≠
      CompilingModuleKind.CMK_HeaderModule) :
    (ActOnModuleDecl S sl ml isImpl p isFirst).2 = none ∧
    (ActOnModuleDecl S sl ml isImpl p isFirst).1.Diags =
      S.Diags ++
        (if S.LangOpts.CompilingModule =
             CompilingModuleKind.CMK_ModuleInterface ∧ isImpl = true then
          [⟨ml, DiagKind.err_module_interface_implementation_mismatch⟩]
        else
          []) ++
        [⟨ml, DiagKind.err_module_redeclaration⟩,
         ⟨S.VisibleModules.getImportLoc back.Mod,
          DiagKind.note_prev_module_declaration⟩] ∧
    (ActOnModuleDecl S sl ml isImpl p isFirst).1.KnownModules =
      S.KnownModules ∧
    (ActOnModuleDecl S sl ml isImpl p isFirst).1.ModuleScopes =
      S.ModuleScopes := by
  simp only [ActOnModuleDecl, moduleDeclAdjustMDK_eq]
  rw [if_neg h1, if_neg h2, hscope]
  simp [hkind, SemaState.Diag, List.append_assoc]

/-- A state with the interface-unit frame of `A` on the scope stack and `A`
visible since location 2 (as `ActOnModuleDecl` leaves it). -/
def declaredAState : SemaState :=
  { testState with
    ModuleScopes :=
      [{ BeginLoc := ⟨2⟩
         Mod := modA
         ModuleInterface := true
         OuterVisibleModules := ⟨[]⟩ }]
    VisibleModules := ⟨[(modA, ⟨2⟩)]⟩ }

/-- Witness for C4 at a concrete input: a second `export module A;` after a
processed interface declaration of `A`. -/
theorem C4_witness :
    declaredAState.ModuleScopes =
      { BeginLoc := ⟨2⟩
        Mod := modA
        ModuleInterface := true
        OuterVisibleModules := ⟨[]⟩ } :: [] ∧
    (ActOnModuleDecl declaredAState ⟨5⟩ ⟨5⟩ false [("A", ⟨5⟩)] false).2 =
      none ∧
    (ActOnModuleDecl declaredAState ⟨5⟩ ⟨5⟩ false [("A", ⟨5⟩)]
        false).1.Diags =
      [⟨⟨5⟩, DiagKind.err_module_redeclaration⟩,
       ⟨⟨2⟩, DiagKind.note_prev_module_declaration⟩] ∧
    (ActOnModuleDecl declaredAState ⟨5⟩ ⟨5⟩ false [("A", ⟨5⟩)]
        false).1.KnownModules = [] := by
  have h := C4_duplicate_module_decl declaredAState ⟨5⟩ ⟨5⟩ false
    [("A", ⟨5⟩)] false
    { BeginLoc := ⟨2⟩
      Mod := modA
      ModuleInterface := true
      OuterVisibleModules := ⟨[]⟩ } [] rfl rfl (by decide) (by decide)
  refine ⟨rfl, h.1, ?_, ?_⟩
  · rw [h.2.1]; decide
  · rw [h.2.2.1]; rfl

theorem moduleDeclAdjustMDK_LangOpts (S : SemaState) (ml : SourceLocation)
    (b : Bool) : (moduleDeclAdjustMDK S ml b).1.LangOpts = S.LangOpts := by
  rw [moduleDeclAdjustMDK_eq]

theorem moduleDeclAdjustMDK_ModuleScopes (S : SemaState)
    (ml : SourceLocation) (b : Bool) :
    (moduleDeclAdjustMDK S ml b).1.ModuleScopes = S.ModuleScopes := by
  rw [moduleDeclAdjustMDK_eq]

theorem moduleDeclAdjustMDK_KnownModules (S : SemaState)
    (ml : SourceLocation) (b : Bool) :
    (moduleDeclAdjustMDK S ml b).1.KnownModules = S.KnownModules := by
  rw [moduleDeclAdjustMDK_eq]

theorem moduleDeclAdjustMDK_Diags (S : SemaState) (ml : SourceLocation)
    (b : Bool) :
    (moduleDeclAdjustMDK S ml b).1.Diags =
      S.Diags ++
        (if S.LangOpts.CompilingModule =
             CompilingModuleKind.CMK_ModuleInterface ∧ b = true then
          [⟨ml, DiagKind.err_module_interface_implementation_mismatch⟩]
        else
          []) := by
  rw [moduleDeclAdjustMDK_eq]

/-- When neither a module-map nor a header module is being compiled and the
top scope frame is not a module-interface unit, `ActOnModuleDecl` falls
through to `actOnModuleDeclRest` on the mismatch-adjusted state (with some
adopted global-module fragment). -/
theorem ActOnModuleDecl_no_dup_dispatch (S : SemaState)
    (sl ml : SourceLocation) (isImpl : Bool) (p : ModuleIdPath)
    (isFirst : Bool)
    (h1 : S.LangOpts.CompilingModule ≠ CompilingModuleKind.CMK_ModuleMap)
    (h2 : S.LangOpts.CompilingModule ≠
      CompilingModuleKind.CMK_HeaderModule)
    (hdup : ∀ back rest, S.ModuleScopes = back :: rest →
      back.Mod.Kind ≠ ModuleKind.ModuleInterfaceUnit) :
    ∃ g, ActOnModuleDecl S sl ml isImpl p isFirst =
      actOnModuleDeclRest (moduleDeclAdjustMDK S ml isImpl).1 sl ml
        (moduleDeclAdjustMDK S ml isImpl).2 p isFirst g := by
  simp only [ActOnModuleDecl]
  rw [if_neg h1, if_neg h2, moduleDeclAdjustMDK_ModuleScopes]
  cases hS : S.ModuleScopes with
  | nil => exact ⟨none, rfl⟩
  | cons back rest =>
    refine ⟨if back.Mod.Kind = ModuleKind.GlobalModuleFragment then
      some back.Mod else none, ?_⟩
    simp [hdup back rest hS]

/-- C8: a module declaration whose flattened name differs from a non-empty
externally configured current module name fails with a null result, emits
the name-mismatch diagnostic at the first path component, does not
overwrite the configured current module name (the language options are
unchanged), pushes no scope frame, and creates no module. -/
theorem C8_module_name_mismatch (S : SemaState) (sl ml : SourceLocation)
    (isImpl : Bool) (p : ModuleIdPath) (isFirst : Bool)
    (h1 : S.LangOpts.CompilingModule ≠ CompilingModuleKind.CMK_ModuleMap)
    (h2 : S.LangOpts.CompilingModule ≠
      CompilingModuleKind.CMK_HeaderModule)
    (hdup : ∀ back rest, S.ModuleScopes = back :: rest →
      back.Mod.Kind ≠ ModuleKind.ModuleInterfaceUnit)
    (hcur : S.LangOpts.CurrentModule ≠ "")
    (hmm : S.LangOpts.CurrentModule ≠ flattenModuleName p) :
    (ActOnModuleDecl S sl ml isImpl p isFirst).2 = none ∧
    (ActOnModuleDecl S sl ml isImpl p isFirst).1.LangOpts = S.LangOpts ∧
    (ActOnModuleDecl S sl ml isImpl p isFirst).1.ModuleScopes =
      S.ModuleScopes ∧
    (ActOnModuleDecl S sl ml isImpl p isFirst).1.KnownModules =
      S.KnownModules ∧
    (∃ ds, (ActOnModuleDecl S sl ml isImpl p isFirst).1.Diags =
      S.Diags ++ ds ++
        [⟨pathFrontLoc p, DiagKind.err_current_module_name_mismatch⟩]) := by
  obtain ⟨g, hdisp⟩ :=
    ActOnModuleDecl_no_dup_dispatch S sl ml isImpl p isFirst h1 h2 hdup
  obtain ⟨ds0, hres⟩ := actOnModuleDeclRest_name_mismatch
    (moduleDeclAdjustMDK S ml isImpl).1 sl ml
    (moduleDeclAdjustMDK S ml isImpl).2 p isFirst g
    (by rw [moduleDeclAdjustMDK_LangOpts]; exact hcur)
    (by rw [moduleDeclAdjustMDK_LangOpts]; exact hmm)
  rw [hdisp, hres]
  refine ⟨rfl, ?_, ?_, ?_, ?_⟩
  · show (moduleDeclAdjustMDK S ml isImpl).1.LangOpts = S.LangOpts
    exact moduleDeclAdjustMDK_LangOpts S ml isImpl
  · show (moduleDeclAdjustMDK S ml isImpl).1.ModuleScopes = S.ModuleScopes
    exact moduleDeclAdjustMDK_ModuleScopes S ml isImpl
  · show (moduleDeclAdjustMDK S ml isImpl).1.KnownModules = S.KnownModules
    exact moduleDeclAdjustMDK_KnownModules S ml isImpl
  · refine ⟨(if S.LangOpts.CompilingModule =
        CompilingModuleKind.CMK_ModuleInterface ∧ isImpl = true then
          [⟨ml, DiagKind.err_module_interface_implementation_mismatch⟩]
        else []) ++ ds0, ?_⟩
    show (moduleDeclAdjustMDK S ml isImpl).1.Diags ++ ds0 ++
        [⟨pathFrontLoc p, DiagKind.err_current_module_name_mismatch⟩] = _
    rw [moduleDeclAdjustMDK_Diags]
    simp [List.append_assoc]

/-- A state configured (externally) with current module name `Other`. -/
def mismatchState : SemaState :=
  { testState with
    LangOpts := { testLangOpts with CurrentModule := "Other" } }

/-- Witness for C8 at a concrete input: `export module A;` with external
override name `Other`. -/
theorem C8_witness :
    mismatchState.LangOpts.CurrentModule = "Other" ∧
    (ActOnModuleDecl mismatchState ⟨2⟩ ⟨2⟩ false [("A", ⟨2⟩)] true).2 =
      none ∧
    (ActOnModuleDecl mismatchState ⟨2⟩ ⟨2⟩ false [("A", ⟨2⟩)]
        true).1.LangOpts.CurrentModule = "Other" ∧
    (ActOnModuleDecl mismatchState ⟨2⟩ ⟨2⟩ false [("A", ⟨2⟩)]
        true).1.ModuleScopes = [] ∧
    (ActOnModuleDecl mismatchState ⟨2⟩ ⟨2⟩ false [("A", ⟨2⟩)]
        true).1.KnownModules = [] ∧
    (∃ ds, (ActOnModuleDecl mismatchState ⟨2⟩ ⟨2⟩ false [("A", ⟨2⟩)]
        true).1.Diags =
      mismatchState.Diags ++ ds ++
        [⟨⟨2⟩, DiagKind.err_current_module_name_mismatch⟩]) := by
  have h := C8_module_name_mismatch mismatchState ⟨2⟩ ⟨2⟩ false
    [("A", ⟨2⟩)] true (by decide) (by decide)
    (by intro back rest hx; simp [mismatchState, testState] at hx)
    (by decide) (by decide)
  have g1 : mismatchState.LangOpts.CurrentModule = "Other" := by decide
  have g3 : (ActOnModuleDecl mismatchState ⟨2⟩ ⟨2⟩ false [("A", ⟨2⟩)]
      true).1.LangOpts.CurrentModule = "Other" := by rw [h.2.1]; exact g1
  have g4 : (ActOnModuleDecl mismatchState ⟨2⟩ ⟨2⟩ false [("A", ⟨2⟩)]
      true).1.ModuleScopes = [] := by rw [h.2.2.1]; rfl
  have g5 : (ActOnModuleDecl mismatchState ⟨2⟩ ⟨2⟩ false [("A", ⟨2⟩)]
      true).1.KnownModules = [] := by rw [h.2.2.2.1]; rfl
  exact ⟨g1, h.1, g3, g4, g5, h.2.2.2.2⟩

/-!  ## `BuildModuleInclude` behaviour (for C10 and C2)  -/

theorem BuildModuleInclude_VisibleModules (S : SemaState)
    (dl : SourceLocation) (M : Module) :
    (BuildModuleInclude S dl M).VisibleModules =
      S.VisibleModules.setVisible M dl := by
  simp only [BuildModuleInclude, importRegisterInitializer_eq]
  split <;> rfl

theorem BuildModuleInclude_LoaderVisibleCalls (S : SemaState)
    (dl : SourceLocation) (M : Module) :
    (BuildModuleInclude S dl M).LoaderVisibleCalls =
      S.LoaderVisibleCalls ++ [(M, dl)] := by
  simp only [BuildModuleInclude, importRegisterInitializer_eq]
  split <;> rfl

theorem BuildModuleInclude_Cache (S : SemaState) (dl : SourceLocation)
    (M : Module) :
    (BuildModuleInclude S dl M).VisibleNamespaceCache =
      S.VisibleNamespaceCache := by
  simp only [BuildModuleInclude, importRegisterInitializer_eq]
  split <;> rfl

theorem BuildModuleInclude_inModuleIncludes (S : SemaState)
    (dl : SourceLocation) (M : Module)
    (h : S.TUKind = TranslationUnitKind.TU_Module ∧
      S.SourceMgr.isWrittenInMainFile dl = true) :
    (BuildModuleInclude S dl M).TUDecls = S.TUDecls ∧
    (BuildModuleInclude S dl M).ModuleInitializers = S.ModuleInitializers ∧
    (BuildModuleInclude S dl M).ConsumerImplicitImports =
      S.ConsumerImplicitImports := by
  simp only [BuildModuleInclude]
  rw [if_pos h]
  exact ⟨rfl, rfl, rfl⟩

/-- C10: `BuildModuleInclude` always makes the module visible at the
directive location both through the module loader and through the
visibility set; in the module-internal-include case (compiling a module
with the directive written in the main file) it creates no implicit
`ImportDecl`, registers no module-initializer dependency and announces
nothing to the AST consumer. -/
theorem C10_build_module_include (S : SemaState) (dl : SourceLocation)
    (M : Module) :
    (BuildModuleInclude S dl M).VisibleModules.isVisible M = true ∧
    (BuildModuleInclude S dl M).VisibleModules.getImportLoc M = dl ∧
    (BuildModuleInclude S dl M).LoaderVisibleCalls =
      S.LoaderVisibleCalls ++ [(M, dl)] ∧
    (S.TUKind = TranslationUnitKind.TU_Module ∧
        S.SourceMgr.isWrittenInMainFile dl = true →
      (BuildModuleInclude S dl M).TUDecls = S.TUDecls ∧
      (BuildModuleInclude S dl M).ModuleInitializers =
        S.ModuleInitializers ∧
      (BuildModuleInclude S dl M).ConsumerImplicitImports =
        S.ConsumerImplicitImports) := by
  refine ⟨?_, ?_, BuildModuleInclude_LoaderVisibleCalls S dl M,
    BuildModuleInclude_inModuleIncludes S dl M⟩
  · rw [BuildModuleInclude_VisibleModules]
    exact setVisible_isVisible _ _ _
  · rw [BuildModuleInclude_VisibleModules]
    exact setVisible_getImportLoc _ _ _

/-- A state in the `#include` buffer of a module being built: TU kind is
`TU_Module` and every location counts as written in the main file. -/
def moduleIncludesState : SemaState :=
  { testState with
    TUKind := TranslationUnitKind.TU_Module
    SourceMgr := { testSourceMgr with isWrittenInMainFile := fun _ => true } }

/-- Witness for C10 at a concrete input: a module-internal include makes the
module visible but creates no implicit import and no initializer. -/
theorem C10_witness :
    (moduleIncludesState.TUKind = TranslationUnitKind.TU_Module ∧
      moduleIncludesState.SourceMgr.isWrittenInMainFile ⟨7⟩ = true) ∧
    (BuildModuleInclude moduleIncludesState ⟨7⟩ modB).TUDecls =
      moduleIncludesState.TUDecls ∧
    (BuildModuleInclude moduleIncludesState ⟨7⟩ modB).ModuleInitializers =
      moduleIncludesState.ModuleInitializers ∧
    (BuildModuleInclude moduleIncludesState ⟨7⟩
        modB).ConsumerImplicitImports =
      moduleIncludesState.ConsumerImplicitImports ∧
    (BuildModuleInclude moduleIncludesState ⟨7⟩
        modB).VisibleModules.isVisible modB = true ∧
    (BuildModuleInclude moduleIncludesState ⟨7⟩
        modB).VisibleModules.getImportLoc modB = ⟨7⟩ := by
  have h := C10_build_module_include moduleIncludesState ⟨7⟩ modB
  have hint := h.2.2.2 ⟨rfl, rfl⟩
  exact ⟨⟨rfl, rfl⟩, hint.1, hint.2.1, hint.2.2, h.1, h.2.1⟩

/-!  ## `ActOnModuleBegin` / `ActOnModuleEnd` behaviour (for C2)  -/

theorem stampEnterChain_VisibleModules (S : SemaState) (M : Module) :
    (stampEnterChain S M).VisibleModules = S.VisibleModules := rfl

theorem stampEnterChain_ModuleScopes (S : SemaState) (M : Module) :
    (stampEnterChain S M).ModuleScopes = S.ModuleScopes := rfl

theorem stampEnterChain_SourceMgr (S : SemaState) (M : Module) :
    (stampEnterChain S M).SourceMgr = S.SourceMgr := rfl

theorem stampEnterChain_LangOpts (S : SemaState) (M : Module) :
    (stampEnterChain S M).LangOpts = S.LangOpts := rfl

theorem stampEnterChain_TUKind (S : SemaState) (M : Module) :
    (stampEnterChain S M).TUKind = S.TUKind := rfl

theorem stampEnterChain_Cache (S : SemaState) (M : Module) :
    (stampEnterChain S M).VisibleNamespaceCache =
      S.VisibleNamespaceCache := rfl

theorem stampExitChain_VisibleModules (S : SemaState) :
    (stampExitChain S).VisibleModules = S.VisibleModules := rfl

theorem stampExitChain_Cache (S : SemaState) :
    (stampExitChain S).VisibleNamespaceCache = S.VisibleNamespaceCache := rfl

/-- Under the local-visibility dialect, `ActOnModuleBegin` snapshots the
whole visibility set into the pushed frame, starts from the emptied
(moved-from) set, and makes only the entered module visible. -/
theorem ActOnModuleBegin_core_lv (S : SemaState) (dl : SourceLocation)
    (M : Module) (hlv : S.LangOpts.ModulesLocalVisibility = true) :
    (ActOnModuleBegin S dl M).VisibleModules =
      (⟨[]⟩ : VisibleModuleSet).setVisible M dl ∧
    (ActOnModuleBegin S dl M).ModuleScopes =
      { BeginLoc := SourceLocation.invalid
        Mod := M
        ModuleInterface := false
        OuterVisibleModules := S.VisibleModules } :: S.ModuleScopes ∧
    (ActOnModuleBegin S dl M).SourceMgr = S.SourceMgr ∧
    (ActOnModuleBegin S dl M).LangOpts = S.LangOpts ∧
    (ActOnModuleBegin S dl M).TUKind = S.TUKind := by
  simp only [ActOnModuleBegin]
  split
  · split
    · exact ⟨rfl, rfl, rfl, rfl, rfl⟩
    · exact ⟨rfl, rfl, rfl, rfl, rfl⟩
  · simp_all

/-- Under the local-visibility dialect, `ActOnModuleEnd` restores the
snapshot saved in the innermost frame, then re-makes the ended module
visible at the end-directive location through `BuildModuleInclude`, and
clears the visible-namespace cache. -/
theorem ActOnModuleEnd_lv (S : SemaState) (eom : SourceLocation)
    (M : Module) (back : ModuleScope) (rest : List ModuleScope)
    (hlv : S.LangOpts.ModulesLocalVisibility = true)
    (hscope : S.ModuleScopes = back :: rest) :
    (ActOnModuleEnd S eom M).VisibleModules =
      back.OuterVisibleModules.setVisible M
        (endDirectiveLoc S.SourceMgr eom) ∧
    (ActOnModuleEnd S eom M).VisibleNamespaceCache = [] := by
  simp only [ActOnModuleEnd, hscope, hlv, if_true,
    apply_ite SemaState.VisibleModules,
    apply_ite SemaState.VisibleNamespaceCache,
    stampExitChain_VisibleModules, stampExitChain_Cache, ite_self,
    BuildModuleInclude_VisibleModules, BuildModuleInclude_Cache]
  exact ⟨trivial, trivial⟩

/-- A baseline state with the local-visibility dialect enabled. -/
def localVisState : SemaState :=
  { testState with
    LangOpts := { testLangOpts with ModulesLocalVisibility := true } }

/-- C2 counterexample: for the matched `ActOnModuleBegin`/`ActOnModuleEnd`
pair on module `A` under local visibility (importing `X` inside), the
visibility set after `ActOnModuleEnd` is not exactly the pre-entry set: `A`
is visible afterwards (re-made visible by the `BuildModuleInclude` call
inside `ActOnModuleEnd`) although it was not visible before entry. -/
theorem C2_counterexample :
    (ActOnModuleEnd
        (ActOnModuleImport (ActOnModuleBegin localVisState ⟨3⟩ modA)
          ⟨4⟩ ⟨0⟩ ⟨4⟩ modX []).1
        ⟨6⟩ modA).VisibleModules.isVisible modA = true ∧
    localVisState.VisibleModules.isVisible modA = false :=
  ⟨rfl, rfl⟩

/-- C2 (amended): under local visibility, for a matched
Begin/Import/End trace on module `Mod` with an import of `X` inside: `X` is
visible for queries made inside the scope; leaving the scope restores the
pre-entry snapshot and then re-makes `Mod` itself visible at the
end-directive location (so the final visibility set is exactly the
pre-entry set with `Mod` set visible, not the pre-entry set itself); the
visible-namespace cache is cleared; and any module other than `Mod` that
was not visible before entry — in particular `X` — is not visible after
exit. -/
theorem C2_local_visibility_roundtrip (S : SemaState)
    (bl sl el il eom : SourceLocation) (Mod X : Module) (p : ModuleIdPath)
    (hlv : S.LangOpts.ModulesLocalVisibility = true) :
    (ActOnModuleImport (ActOnModuleBegin S bl Mod) sl el il X
        p).1.VisibleModules.isVisible X = true ∧
    (ActOnModuleEnd
        (ActOnModuleImport (ActOnModuleBegin S bl Mod) sl el il X p).1
        eom Mod).VisibleModules =
      S.VisibleModules.setVisible Mod (endDirectiveLoc S.SourceMgr eom) ∧
    (ActOnModuleEnd
        (ActOnModuleImport (ActOnModuleBegin S bl Mod) sl el il X p).1
        eom Mod).VisibleNamespaceCache = [] ∧
    (∀ Y, Y ≠ Mod → S.VisibleModules.isVisible Y = false →
      (ActOnModuleEnd
          (ActOnModuleImport (ActOnModuleBegin S bl Mod) sl el il X p).1
          eom Mod).VisibleModules.isVisible Y = false) := by
  obtain ⟨hbVis, hbScopes, hbSM, hbLO, _⟩ :=
    ActOnModuleBegin_core_lv S bl Mod hlv
  have hlv2 : (ActOnModuleImport (ActOnModuleBegin S bl Mod) sl el il X
      p).1.LangOpts.ModulesLocalVisibility = true := by
    rw [ActOnModuleImport_LangOpts, hbLO]; exact hlv
  have hscope2 : (ActOnModuleImport (ActOnModuleBegin S bl Mod) sl el il X
      p).1.ModuleScopes =
      { BeginLoc := SourceLocation.invalid
        Mod := Mod
        ModuleInterface := false
        OuterVisibleModules := S.VisibleModules } :: S.ModuleScopes := by
    rw [ActOnModuleImport_ModuleScopes, hbScopes]
  obtain ⟨heVis, heCache⟩ :=
    ActOnModuleEnd_lv
      (ActOnModuleImport (ActOnModuleBegin S bl Mod) sl el il X p).1 eom Mod
      { BeginLoc := SourceLocation.invalid
        Mod := Mod
        ModuleInterface := false
        OuterVisibleModules := S.VisibleModules }
      S.ModuleScopes hlv2 hscope2
  rw [ActOnModuleImport_SourceMgr, hbSM] at heVis
  refine ⟨?_, heVis, heCache, ?_⟩
  · rw [ActOnModuleImport_VisibleModules]
    exact setVisible_isVisible _ _ _
  · intro Y hY hvis
    rw [heVis, setVisible_isVisible_ne _ _ _ _ hY]
    exact hvis

/-- Witness for C2 at a concrete input: the Begin/Import/End trace on `A`
with `X` imported inside, under local visibility. -/
theorem C2_witness :
    localVisState.LangOpts.ModulesLocalVisibility = true ∧
    (ActOnModuleImport (ActOnModuleBegin localVisState ⟨3⟩ modA)
        ⟨4⟩ ⟨0⟩ ⟨4⟩ modX []).1.VisibleModules.isVisible modX = true ∧
    (ActOnModuleEnd
        (ActOnModuleImport (ActOnModuleBegin localVisState ⟨3⟩ modA)
          ⟨4⟩ ⟨0⟩ ⟨4⟩ modX []).1
        ⟨6⟩ modA).VisibleModules =
      localVisState.VisibleModules.setVisible modA
        (endDirectiveLoc localVisState.SourceMgr ⟨6⟩) ∧
    (ActOnModuleEnd
        (ActOnModuleImport (ActOnModuleBegin localVisState ⟨3⟩ modA)
          ⟨4⟩ ⟨0⟩ ⟨4⟩ modX []).1
        ⟨6⟩ modA).VisibleNamespaceCache = [] ∧
    (ActOnModuleEnd
        (ActOnModuleImport (ActOnModuleBegin localVisState ⟨3⟩ modA)
          ⟨4⟩ ⟨0⟩ ⟨4⟩ modX []).1
        ⟨6⟩ modA).VisibleModules.isVisible modX = false := by
  have h := C2_local_visibility_roundtrip localVisState ⟨3⟩ ⟨4⟩ ⟨0⟩ ⟨4⟩ ⟨6⟩
    modA modX [] (by decide)
  exact ⟨by decide, h.1, h.2.1, h.2.2.1,
    h.2.2.2 modX (by decide) (by decide)⟩

end Clang
